import Mathlib

/-!
Shallow embedding of `src/python/pyrogen_check/__main__.py`.

The program is a launcher shim: `find_pyrogen_bin` resolves the path of the
`pyrogen` executable by checking two candidate locations derived from
`sysconfig`, and the `__main__` block spawns the resolved binary with
`sys.argv[1:]` and exits with the child's return code.

All interaction with the host (sysconfig queries, `Path.is_file` checks,
`subprocess.run`) is modelled by an `Env` record of pure observation
functions, and every observable effect the Python code performs is recorded,
in program order, in a trace of `Event`s, so that short-circuit and
"no spawn attempt" properties can be stated about the trace.
-/

namespace PyrogenCheck

/-- One observable effect against the host environment, in the order the
Python code performs them: `sysconfig.get_config_var("EXE")`,
`sysconfig.get_path("scripts")`, `Path.is_file`,
`sysconfig.get_preferred_scheme("user")`,
`sysconfig.get_path("scripts", scheme=...)`, and `subprocess.run`. -/
inductive Event where
  | getConfigVarEXE : Event
  | getPathScripts : Event
  | isFileCheck : String → Event
  | getPreferredSchemeUser : Event
  | getPathScriptsForScheme : String → Event
  | spawn : String → List String → Event
deriving DecidableEq, Repr

/-- The host environment observed by one run of the program:
the `EXE` config var, the default-scheme scripts directory, the preferred
user scheme name, the scripts directory of each named scheme, which paths
are regular files, and the result of spawning an executable with arguments
(`Except.error` models an `OSError` raised by `subprocess.run`,
`Except.ok` the child's return code). -/
structure Env where
  exeSuffix : String
  scriptsPath : String
  preferredUserScheme : String
  schemeScriptsPath : String → String
  isFile : String → Bool
  spawn : String → List String → Except String Int

/-- `pathlib`'s `/` operator on the paths this program builds. -/
def joinPath (dir file : String) : String := dir ++ "/" ++ file

/-- `pyrogen_exe = "pyrogen" + sysconfig.get_config_var("EXE")`. -/
def pyrogen_exe (env : Env) : String := "pyrogen" ++ env.exeSuffix

/-- The first candidate path: `Path(sysconfig.get_path("scripts")) / pyrogen_exe`. -/
def primaryCandidate (env : Env) : String :=
  joinPath env.scriptsPath (pyrogen_exe env)

/-- The second candidate path:
`Path(sysconfig.get_path("scripts", scheme=user_scheme)) / pyrogen_exe`
with `user_scheme = sysconfig.get_preferred_scheme("user")`. -/
def fallbackCandidate (env : Env) : String :=
  joinPath (env.schemeScriptsPath env.preferredUserScheme) (pyrogen_exe env)

/-- `find_pyrogen_bin`: returns `Except.ok` with the resolved path, or
`Except.error` carrying the path the `FileNotFoundError` is raised with,
together with the ordered trace of host queries the function performed. -/
def find_pyrogen_bin (env : Env) : Except String String × List Event :=
  let exe := pyrogen_exe env
  let path1 := joinPath env.scriptsPath exe
  let tr1 := [Event.getConfigVarEXE, Event.getPathScripts, Event.isFileCheck path1]
  if env.isFile path1 then
    (Except.ok path1, tr1)
  else
    let user_scheme := env.preferredUserScheme
    let path2 := joinPath (env.schemeScriptsPath user_scheme) exe
    let tr2 := tr1 ++ [Event.getPreferredSchemeUser,
      Event.getPathScriptsForScheme user_scheme, Event.isFileCheck path2]
    if env.isFile path2 then
      (Except.ok path2, tr2)
    else
      (Except.error path2, tr2)

/-- A Python exception escaping the `__main__` block:
the resolver's `FileNotFoundError(path)`, or an `OSError` raised by
`subprocess.run` when the resolved file cannot be launched. -/
inductive PyError where
  | fileNotFoundError : String → PyError
  | launchOSError : String → PyError
deriving DecidableEq, Repr

/-- How one run of the program terminates: `sys.exit(code)`, or an
uncaught exception. -/
inductive Outcome where
  | exit : Int → Outcome
  | uncaught : PyError → Outcome
deriving DecidableEq, Repr

/-- The `if __name__ == "__main__":` block:
`pyrogen = find_pyrogen_bin()`, then
`completed_process = subprocess.run([pyrogen, *sys.argv[1:]])`, then
`sys.exit(completed_process.returncode)`; any exception propagates. -/
def main_block (env : Env) (sys_argv : List String) : Outcome × List Event :=
  match find_pyrogen_bin env with
  | (Except.error p, tr) => (Outcome.uncaught (PyError.fileNotFoundError p), tr)
  | (Except.ok pyrogen, tr) =>
      let args := sys_argv.drop 1
      match env.spawn pyrogen args with
      | Except.error e =>
          (Outcome.uncaught (PyError.launchOSError e), tr ++ [Event.spawn pyrogen args])
      | Except.ok code =>
          (Outcome.exit code, tr ++ [Event.spawn pyrogen args])

/-- The process exit status of an `Outcome`: `sys.exit(code)` terminates
with `code`; CPython terminates with status 1 on an unhandled exception. -/
def exitStatus : Outcome → Int
  | Outcome.exit code => code
  | Outcome.uncaught _ => 1

/-- An environment where the primary scripts directory holds `pyrogen`
and the child exits with status 0. -/
def envA : Env where
  exeSuffix := ""
  scriptsPath := "/venv/bin"
  preferredUserScheme := "posix_user"
  schemeScriptsPath := fun s => if s == "posix_user" then "/home/u/.local/bin" else "/elsewhere"
  isFile := fun p => p == "/venv/bin/pyrogen"
  spawn := fun e _ => if e == "/venv/bin/pyrogen" then Except.ok 0 else Except.error "not runnable"

/-- An environment where only the user-scheme scripts directory holds
`pyrogen`. -/
def envB : Env where
  exeSuffix := ""
  scriptsPath := "/venv/bin"
  preferredUserScheme := "posix_user"
  schemeScriptsPath := fun s => if s == "posix_user" then "/home/u/.local/bin" else "/elsewhere"
  isFile := fun p => p == "/home/u/.local/bin/pyrogen"
  spawn := fun e _ => if e == "/home/u/.local/bin/pyrogen" then Except.ok 3 else Except.error "not runnable"

/-- An environment where neither directory holds `pyrogen`. -/
def envC : Env where
  exeSuffix := ""
  scriptsPath := "/venv/bin"
  preferredUserScheme := "posix_user"
  schemeScriptsPath := fun s => if s == "posix_user" then "/home/u/.local/bin" else "/elsewhere"
  isFile := fun _ => false
  spawn := fun _ _ => Except.ok 0

/-- An environment where the primary candidate exists but cannot be
launched: `subprocess.run` raises a `PermissionError`. -/
def envD : Env where
  exeSuffix := ""
  scriptsPath := "/venv/bin"
  preferredUserScheme := "posix_user"
  schemeScriptsPath := fun s => if s == "posix_user" then "/home/u/.local/bin" else "/elsewhere"
  isFile := fun p => p == "/venv/bin/pyrogen"
  spawn := fun _ _ => Except.error "PermissionError"

/-- C1: for every child exit status, when resolution succeeds and the spawn
of the resolved binary with `sys.argv[1:]` returns exit code `code`, the
launcher terminates with exactly `code` as its own exit status (the spawn
is synchronous in the embedding, mirroring `subprocess.run`'s blocking
wait). -/
theorem C1_exit_mirrors_child (env : Env) (sys_argv : List String) (p : String) (code : Int)
    (hfind : (find_pyrogen_bin env).1 = Except.ok p)
    (hspawn : env.spawn p (sys_argv.drop 1) = Except.ok code) :
    exitStatus (main_block env sys_argv).1 = code := by
  simp only [List.drop_one] at hspawn
  unfold main_block
  rcases hfp : find_pyrogen_bin env with ⟨r, tr⟩
  rw [hfp] at hfind
  simp only at hfind
  subst hfind
  simp [hspawn, exitStatus]

/-- Witness for C1 at the concrete environment `envA` with
`sys.argv = ["pyrogen_check", "--version"]` and child exit code 0. -/
theorem C1_exit_mirrors_child_witness :
    exitStatus (main_block envA ["pyrogen_check", "--version"]).1 = 0 :=
  C1_exit_mirrors_child envA ["pyrogen_check", "--version"] "/venv/bin/pyrogen" 0
    rfl rfl

/-- C2: whenever resolution succeeds with path `p`, the launcher's trace is
the resolver's trace followed by exactly one spawn of `p` with exactly
`sys_argv.drop 1` (the full argument vector after the program name,
verbatim and order-preserving — nothing added, removed or transformed). -/
theorem C2_args_forwarded_verbatim (env : Env) (sys_argv : List String) (p : String)
    (hfind : (find_pyrogen_bin env).1 = Except.ok p) :
    (main_block env sys_argv).2 =
      (find_pyrogen_bin env).2 ++ [Event.spawn p (sys_argv.drop 1)] := by
  unfold main_block
  rcases hfp : find_pyrogen_bin env with ⟨r, tr⟩
  rw [hfp] at hfind
  simp only at hfind
  subst hfind
  rcases hsp : env.spawn p sys_argv.tail with e | code <;>
    simp [List.drop_one, hsp]

/-- Witness for C2 at `envA` with `sys.argv = ["pyrogen_check", "--version"]`:
the child is spawned with exactly `["--version"]`. -/
theorem C2_args_forwarded_verbatim_witness :
    (main_block envA ["pyrogen_check", "--version"]).2 =
      (find_pyrogen_bin envA).2 ++ [Event.spawn "/venv/bin/pyrogen" ["--version"]] :=
  C2_args_forwarded_verbatim envA ["pyrogen_check", "--version"] "/venv/bin/pyrogen"
    rfl

/-- C3: when the primary scripts directory holds the candidate as a regular
file, the resolver returns the primary candidate path and its trace stops
at that first `is_file` check: it never queries the preferred user scheme,
never queries any scheme's scripts directory, and checks no other path. -/
theorem C3_primary_short_circuit (env : Env)
    (h : env.isFile (primaryCandidate env) = true) :
    find_pyrogen_bin env =
      (Except.ok (primaryCandidate env),
        [Event.getConfigVarEXE, Event.getPathScripts,
          Event.isFileCheck (primaryCandidate env)]) ∧
    Event.getPreferredSchemeUser ∉ (find_pyrogen_bin env).2 ∧
    (∀ s, Event.getPathScriptsForScheme s ∉ (find_pyrogen_bin env).2) ∧
    (∀ q, Event.isFileCheck q ∈ (find_pyrogen_bin env).2 → q = primaryCandidate env) := by
  simp only [primaryCandidate] at h
  simp [find_pyrogen_bin, primaryCandidate, h]

/-- Witness for C3 at `envA`, where `/venv/bin/pyrogen` is a regular file. -/
theorem C3_primary_short_circuit_witness :
    find_pyrogen_bin envA =
      (Except.ok (primaryCandidate envA),
        [Event.getConfigVarEXE, Event.getPathScripts,
          Event.isFileCheck (primaryCandidate envA)]) :=
  (C3_primary_short_circuit envA (by decide)).1

/-- C4: when the primary scripts directory lacks the candidate but the
user-scheme scripts directory holds it as a regular file, the resolver
returns the fallback (user-scheme) candidate path. -/
theorem C4_fallback_returned (env : Env)
    (h1 : env.isFile (primaryCandidate env) = false)
    (h2 : env.isFile (fallbackCandidate env) = true) :
    (find_pyrogen_bin env).1 = Except.ok (fallbackCandidate env) := by
  simp only [primaryCandidate] at h1
  simp only [fallbackCandidate] at h2
  simp [find_pyrogen_bin, fallbackCandidate, h1, h2]

/-- Witness for C4 at `envB`, where only `/home/u/.local/bin/pyrogen`
exists. -/
theorem C4_fallback_returned_witness :
    (find_pyrogen_bin envB).1 = Except.ok (fallbackCandidate envB) :=
  C4_fallback_returned envB (by decide) (by decide)

/-- C5: when neither directory holds the candidate, the resolver fails with
the error carrying the last-checked path (the user-scheme candidate), and
no path is returned; conversely, any error the resolver produces carries
the user-scheme candidate path and arises only in that situation — it is
the only error the resolver can produce. -/
theorem C5_not_found_error (env : Env)
    (h1 : env.isFile (primaryCandidate env) = false)
    (h2 : env.isFile (fallbackCandidate env) = false) :
    (find_pyrogen_bin env).1 = Except.error (fallbackCandidate env) ∧
    (∀ p, (find_pyrogen_bin env).1 ≠ Except.ok p) ∧
    (∀ e, (find_pyrogen_bin env).1 = Except.error e → e = fallbackCandidate env) := by
  simp only [primaryCandidate] at h1
  simp only [fallbackCandidate] at h2
  simp [find_pyrogen_bin, fallbackCandidate, h1, h2]

/-- Witness for C5 at `envC`, where no path is a regular file. -/
theorem C5_not_found_error_witness :
    (find_pyrogen_bin envC).1 = Except.error (fallbackCandidate envC) :=
  (C5_not_found_error envC (by decide) (by decide)).1

/-- C6: when resolution fails, for every argument vector the launcher
terminates with a non-zero exit status (the uncaught `FileNotFoundError`)
and its trace contains no spawn event: no process spawn is attempted. -/
theorem C6_failure_nonzero_no_spawn (env : Env) (sys_argv : List String)
    (h1 : env.isFile (primaryCandidate env) = false)
    (h2 : env.isFile (fallbackCandidate env) = false) :
    (main_block env sys_argv).1 =
      Outcome.uncaught (PyError.fileNotFoundError (fallbackCandidate env)) ∧
    exitStatus (main_block env sys_argv).1 ≠ 0 ∧
    (∀ e a, Event.spawn e a ∉ (main_block env sys_argv).2) := by
  simp only [primaryCandidate] at h1
  simp only [fallbackCandidate] at h2
  simp [main_block, find_pyrogen_bin, fallbackCandidate, h1, h2, exitStatus]

/-- Witness for C6 at `envC` with arguments `["pyrogen_check", "check", "."]`. -/
theorem C6_failure_nonzero_no_spawn_witness :
    exitStatus (main_block envC ["pyrogen_check", "check", "."]).1 ≠ 0 :=
  (C6_failure_nonzero_no_spawn envC ["pyrogen_check", "check", "."]
    (by decide) (by decide)).2.1

/-- C7: on every platform the computed candidate filename is the fixed tool
name `"pyrogen"` concatenated with the platform's `EXE` suffix (`""` on
POSIX gives `"pyrogen"`, `".exe"` on Windows gives `"pyrogen.exe"`), both
candidate paths are built from that filename, and every path the resolver
ever checks is a directory joined with that filename. -/
theorem C7_candidate_filename (env : Env) :
    pyrogen_exe env = "pyrogen" ++ env.exeSuffix ∧
    pyrogen_exe { env with exeSuffix := "" } = "pyrogen" ∧
    pyrogen_exe { env with exeSuffix := ".exe" } = "pyrogen.exe" ∧
    primaryCandidate env = joinPath env.scriptsPath ("pyrogen" ++ env.exeSuffix) ∧
    fallbackCandidate env =
      joinPath (env.schemeScriptsPath env.preferredUserScheme) ("pyrogen" ++ env.exeSuffix) ∧
    (∀ q, Event.isFileCheck q ∈ (find_pyrogen_bin env).2 →
      q = joinPath env.scriptsPath ("pyrogen" ++ env.exeSuffix) ∨
      q = joinPath (env.schemeScriptsPath env.preferredUserScheme)
            ("pyrogen" ++ env.exeSuffix)) := by
  refine ⟨rfl, rfl, rfl, rfl, rfl, ?_⟩
  intro q hq
  simp only [find_pyrogen_bin, pyrogen_exe] at hq
  by_cases h1 : env.isFile (joinPath env.scriptsPath ("pyrogen" ++ env.exeSuffix))
  · simp [h1] at hq
    exact Or.inl hq
  · by_cases h2 : env.isFile
        (joinPath (env.schemeScriptsPath env.preferredUserScheme) ("pyrogen" ++ env.exeSuffix))
    · simp [h1, h2] at hq
      exact hq
    · simp [h1, h2] at hq
      exact hq

/-- Witness for C7 at the POSIX-like environment `envA`, whose `EXE`
suffix is empty: the computed candidate filename is `"pyrogen"`. -/
theorem C7_candidate_filename_witness :
    pyrogen_exe envA = "pyrogen" ++ envA.exeSuffix :=
  (C7_candidate_filename envA).1

/-- C9: whenever the resolver returns successfully, the returned path is
exactly one of the two candidate paths, and the regular-file check held
for the returned path; no other path is ever returned. -/
theorem C9_success_is_checked_candidate (env : Env) (p : String)
    (h : (find_pyrogen_bin env).1 = Except.ok p) :
    (p = primaryCandidate env ∨ p = fallbackCandidate env) ∧ env.isFile p = true := by
  unfold find_pyrogen_bin at h
  unfold primaryCandidate fallbackCandidate
  by_cases h1 : env.isFile (joinPath env.scriptsPath (pyrogen_exe env))
  · simp [h1] at h
    subst h
    exact ⟨Or.inl rfl, h1⟩
  · by_cases h2 : env.isFile
        (joinPath (env.schemeScriptsPath env.preferredUserScheme) (pyrogen_exe env))
    · simp [h1, h2] at h
      subst h
      exact ⟨Or.inr rfl, h2⟩
    · simp [h1, h2] at h

/-- Witness for C9 at `envB`, whose resolver returns the fallback path. -/
theorem C9_success_is_checked_candidate_witness :
    ("/home/u/.local/bin/pyrogen" = primaryCandidate envB ∨
      "/home/u/.local/bin/pyrogen" = fallbackCandidate envB) ∧
    envB.isFile "/home/u/.local/bin/pyrogen" = true :=
  C9_success_is_checked_candidate envB "/home/u/.local/bin/pyrogen" rfl

/-- C10: the launcher is deterministic — two runs whose environments agree
on every observation (executable suffix, scripts directories, preferred
user scheme, file-existence answers, and spawn results including the child
exit status) and that receive the same argument vector produce the same
resolution, the same trace (hence the same spawned command line), and the
same termination outcome. -/
theorem C10_deterministic (env1 env2 : Env) (sys_argv : List String)
    (hexe : env1.exeSuffix = env2.exeSuffix)
    (hscripts : env1.scriptsPath = env2.scriptsPath)
    (hscheme : env1.preferredUserScheme = env2.preferredUserScheme)
    (hschemePath : ∀ s, env1.schemeScriptsPath s = env2.schemeScriptsPath s)
    (hisFile : ∀ p, env1.isFile p = env2.isFile p)
    (hspawn : ∀ e a, env1.spawn e a = env2.spawn e a) :
    main_block env1 sys_argv = main_block env2 sys_argv := by
  have heq : env1 = env2 := by
    cases env1
    cases env2
    simp only [Env.mk.injEq]
    exact ⟨hexe, hscripts, hscheme, funext hschemePath, funext hisFile,
      funext fun e => funext fun a => hspawn e a⟩
  rw [heq]

/-- Witness for C10: two syntactically distinct environments with identical
observations produce identical runs. -/
theorem C10_deterministic_witness :
    main_block envA ["pyrogen_check", "--version"] =
      main_block { envA with exeSuffix := "" } ["pyrogen_check", "--version"] :=
  C10_deterministic envA { envA with exeSuffix := "" } ["pyrogen_check", "--version"]
    rfl rfl rfl (fun _ => rfl) (fun _ => rfl) (fun _ _ => rfl)

/-- C8: when resolution succeeds but the spawn itself fails (the resolved
file cannot be executed), the launcher terminates with an uncaught launch
error — a non-zero exit status, never silently swallowed — and that
failure is distinct from the resolver's `FileNotFoundError` condition. -/
theorem C8_launch_failure_distinct (env : Env) (sys_argv : List String) (p msg : String)
    (hfind : (find_pyrogen_bin env).1 = Except.ok p)
    (hspawn : env.spawn p (sys_argv.drop 1) = Except.error msg) :
    (main_block env sys_argv).1 = Outcome.uncaught (PyError.launchOSError msg) ∧
    exitStatus (main_block env sys_argv).1 ≠ 0 ∧
    (∀ q, (main_block env sys_argv).1 ≠
      Outcome.uncaught (PyError.fileNotFoundError q)) := by
  simp only [List.drop_one] at hspawn
  unfold main_block
  rcases hfp : find_pyrogen_bin env with ⟨r, tr⟩
  rw [hfp] at hfind
  simp only at hfind
  subst hfind
  simp [hspawn, exitStatus]

/-- Witness for C8 at `envD`, where `/venv/bin/pyrogen` exists but spawning
it raises a `PermissionError`. -/
theorem C8_launch_failure_distinct_witness :
    (main_block envD ["pyrogen_check"]).1 =
      Outcome.uncaught (PyError.launchOSError "PermissionError") :=
  (C8_launch_failure_distinct envD ["pyrogen_check"] "/venv/bin/pyrogen" "PermissionError"
    rfl rfl).1

end PyrogenCheck
